import Mathlib

/-!
Verification development for MyOleFileParser.py, a decoder for the
Microsoft Compound File Binary (CFB/OLE2) format.  The Python source is
shallowly embedded below: byte sources are lists of naturals (each < 256
in every real execution), file reads become list indexing with a default
of 0, the unbounded while loops of the source become fuel-indexed
recursions returning none when the fuel is exhausted (none therefore
models both non-termination and a Python runtime error such as an
IndexError), and printed hex dumps become the lists of byte values the
source would print.
-/

/-- OLE file signature (MAGICOLESIG in the source). -/
def MAGICOLESIG : List Nat := [0xd0, 0xcf, 0x11, 0xe0, 0xa1, 0xb1, 0x1a, 0xe1]

/-- Number of DIFAT entries stored inline in the header. -/
def NUMBER_DIFAT_ENTRIES_IN_HEADER : Nat := 109

/-- DIFAT sector marker. -/
def DIFATSECTOR : Nat := 0xFFFFFFFC

/-- FAT sector marker. -/
def FATSECTOR : Nat := 0xFFFFFFFD

/-- End of chain value. -/
def ENDOFCHAIN : Nat := 0xFFFFFFFE

/-- Unallocated entry. -/
def UNALLOCATED : Nat := 0xFFFFFFFF

/-- Little-endian value of a list of bytes (struct.unpack of the little
endian formats I, H, Q in the source). -/
def leVal (bs : List Nat) : Nat := bs.foldr (fun b acc => b + 256 * acc) 0

/-- struct.unpack_from of a little-endian 32-bit value at offset off of a
byte list.  Bytes past the end of the list are modelled as 0. -/
def readU32 (bs : List Nat) (off : Nat) : Nat :=
  bs.getD off 0 + 256 * bs.getD (off + 1) 0 + 65536 * bs.getD (off + 2) 0 +
    16777216 * bs.getD (off + 3) 0

/-- struct.unpack_from of a little-endian 64-bit value at offset off. -/
def readU64 (bs : List Nat) (off : Nat) : Nat :=
  leVal ((bs.drop off).take 8)

/-- The uppercase hexadecimal digit for a value below 16. -/
def hexDigit (n : Nat) : Char :=
  if n < 10 then Char.ofNat (48 + n) else Char.ofNat (55 + n)

/-- Python 02X formatting of a byte value (bytes-object elements are
always below 256): two uppercase hexadecimal digits, zero padded. -/
def formatHex2 (b : Nat) : String :=
  String.mk [hexDigit (b / 16 % 16), hexDigit (b % 16)]

/-- parse_clsid from the source.  A CLSID is a mixed-endian 16-byte
array; the loops below mirror the five Python for-loops, whose ranges are
range(4) on indices 3-i, range(5,3,-1), range(7,5,-1), range(8,10) and
range(10,16). -/
def parse_clsid (P_clsid : List Nat) : String :=
  let clsid2 := (List.range 4).foldl
    (fun s i => s ++ formatHex2 (P_clsid.getD (3 - i) 0)) ""
  let clsid2 := clsid2 ++ "-"
  let clsid2 := [5, 4].foldl (fun s i => s ++ formatHex2 (P_clsid.getD i 0)) clsid2
  let clsid2 := clsid2 ++ "-"
  let clsid2 := [7, 6].foldl (fun s i => s ++ formatHex2 (P_clsid.getD i 0)) clsid2
  let clsid2 := clsid2 ++ "-"
  let clsid2 := [8, 9].foldl (fun s i => s ++ formatHex2 (P_clsid.getD i 0)) clsid2
  let clsid2 := clsid2 ++ "-"
  let clsid2 := [10, 11, 12, 13, 14, 15].foldl
    (fun s i => s ++ formatHex2 (P_clsid.getD i 0)) clsid2
  clsid2

/-- The byte groups of the CLSID rendering as the specification states
them: bytes 3,2,1,0, then 5,4, then 7,6, then 8,9, then 10..15. -/
def clsidGroups : List (List Nat) := [[3, 2, 1, 0], [5, 4], [7, 6], [8, 9],
  [10, 11, 12, 13, 14, 15]]

/-- Modelled from the spec: the claimed CLSID rendering, five dash
separated groups of byte values, each byte as two uppercase hex digits,
in the mixed-endian group order of clsidGroups. -/
def renderClsidSpec (c : List Nat) : String :=
  String.intercalate "-"
    (clsidGroups.map (fun g => String.join (g.map (fun i => formatHex2 (c.getD i 0)))))

/-- An uppercase hexadecimal digit. -/
def isUpperHex (ch : Char) : Prop :=
  ('0' ≤ ch ∧ ch ≤ '9') ∨ ('A' ≤ ch ∧ ch ≤ 'F')

instance (ch : Char) : Decidable (isUpperHex ch) := by
  unfold isUpperHex; infer_instance

/-! ## Header decoding (main, lines 170-197)

The byte source is read sequentially; RState records the position and the
offsets of every byte read so far, so that claims about which parts of
the source are touched can be stated. -/

/-- Sequential-reader state: current position and the file offsets of all
bytes read so far, in order. -/
structure RState where
  pos : Nat
  reads : List Nat
  deriving DecidableEq

/-- f.read(n): take n bytes at the current position (fewer if the source
is exhausted, as in Python) and log the offsets read. -/
def rread (file : List Nat) (n : Nat) (s : RState) : List Nat × RState :=
  ((file.drop s.pos).take n,
    ⟨s.pos + n, s.reads ++ (List.range n).map (s.pos + ·)⟩)

/-- Errors of the decoder front end.  The source prints a message and
exits with status 1 when the magic signature is absent; the spec calls
this outcome BadSignature. -/
inductive FormatError where
  | badSignature
  deriving DecidableEq

/-- The decoded header fields (main, lines 178-197). -/
structure Header where
  clsid : List Nat
  minor_version : Nat
  major_version : Nat
  byte_order : Nat
  sector_shift : Nat
  mini_sector_shift : Nat
  reserved : List Nat
  directory_sector_count : Nat
  fat_sector_count : Nat
  first_directory_sector_id : Nat
  transaction_signature_number : Nat
  mini_stream_cutoff_size : Nat
  first_mini_fat_sector_id : Nat
  mini_fat_sector_count : Nat
  first_difat_sector_id : Nat
  difat_sector_count : Nat
  difat_entries : List Nat
  deriving DecidableEq

/-- The header phase of main (lines 170-197): check the 8-byte magic
signature, abort at once on mismatch, otherwise read the remaining header
fields and the 109 inline DIFAT entries sequentially. -/
def decodeHeader (file : List Nat) : Except FormatError Header × RState :=
  let (magic, s1) := rread file 8 ⟨0, []⟩
  if magic ≠ MAGICOLESIG then (Except.error FormatError.badSignature, s1)
  else
    let (clsid, s2) := rread file 16 s1
    let (b1, s3) := rread file 2 s2
    let (b2, s4) := rread file 2 s3
    let (b3, s5) := rread file 2 s4
    let (b4, s6) := rread file 2 s5
    let (b5, s7) := rread file 2 s6
    let (reserved, s8) := rread file 6 s7
    let (b6, s9) := rread file 4 s8
    let (b7, s10) := rread file 4 s9
    let (b8, s11) := rread file 4 s10
    let (b9, s12) := rread file 4 s11
    let (b10, s13) := rread file 4 s12
    let (b11, s14) := rread file 4 s13
    let (b12, s15) := rread file 4 s14
    let (b13, s16) := rread file 4 s15
    let (b14, s17) := rread file 4 s16
    let (difat, s18) := (List.range NUMBER_DIFAT_ENTRIES_IN_HEADER).foldl
      (fun (acc : List Nat × RState) _ =>
        let (b, s) := rread file 4 acc.2
        (acc.1 ++ [leVal b], s)) ([], s17)
    (Except.ok
      { clsid := clsid
        minor_version := leVal b1
        major_version := leVal b2
        byte_order := leVal b3
        sector_shift := leVal b4
        mini_sector_shift := leVal b5
        reserved := reserved
        directory_sector_count := leVal b6
        fat_sector_count := leVal b7
        first_directory_sector_id := leVal b8
        transaction_signature_number := leVal b9
        mini_stream_cutoff_size := leVal b10
        first_mini_fat_sector_id := leVal b11
        mini_fat_sector_count := leVal b12
        first_difat_sector_id := leVal b13
        difat_sector_count := leVal b14
        difat_entries := difat }, s18)

/-! ## DIFAT chain (main, lines 245-261)

The while loop runs until the next-DIFAT-sector value is ENDOFCHAIN; it
has no other exit.  It is embedded with a fuel argument: the result none
means the loop is still running when the fuel is exhausted. -/

/-- The DIFAT-sector while loop of main: cur is myNextDifatSector, chain
is myDifat_chain (initially the list with only 0, the header), entries is
difat_entries.  Each iteration reads sectorSize/4 - 1 FAT-sector entries
from the DIFAT sector at file offset (1 + cur) * sectorSize and then the
final slot as the next DIFAT sector id. -/
def buildDifatGo (file : List Nat) (sectorSize : Nat) :
    Nat → Nat → List Nat → List Nat → Option (List Nat × List Nat)
  | 0, _, _, _ => none
  | fuel + 1, cur, chain, entries =>
    if cur = ENDOFCHAIN then some (chain, entries)
    else
      let off := (1 + cur) * sectorSize
      let newEntries := (List.range (sectorSize / 4 - 1)).map
        (fun i => readU32 file (off + 4 * i))
      let next := readU32 file (off + 4 * (sectorSize / 4 - 1))
      buildDifatGo file sectorSize fuel next (chain ++ [cur]) (entries ++ newEntries)

/-! ## FAT table (main, lines 267-303) -/

/-- Classification of a FAT slot by its stored value (main, 293-302). -/
inductive SectorType where
  | FAT
  | DIFAT
  | EndOfChain
  | Free
  | Data
  deriving DecidableEq

/-- The type string computed for a FAT entry value. -/
def classify (next : Nat) : SectorType :=
  if next = FATSECTOR then SectorType.FAT
  else if next = DIFATSECTOR then SectorType.DIFAT
  else if next = ENDOFCHAIN then SectorType.EndOfChain
  else if next = UNALLOCATED then SectorType.Free
  else SectorType.Data

/-- One element of myAllocatedSectors: the sector number, the stored next
value and its classification (the ptroffset and type2 presentation fields
of the source are not modelled). -/
structure FatRec where
  number : Nat
  next : Nat
  type : SectorType
  deriving DecidableEq

/-- The FAT-building loop over the DIFAT entries (main, lines 271-303):
stop at an ENDOFCHAIN entry, skip UNALLOCATED entries (the index i still
advances), otherwise read sectorSize/4 32-bit values from the FAT sector
and record them with sector numbers j + i * (sectorSize/4). -/
def buildFatGo (file : List Nat) (sectorSize : Nat) :
    List Nat → Nat → List FatRec
  | [], _ => []
  | e :: rest, i =>
    if e = ENDOFCHAIN then []
    else if e = UNALLOCATED then buildFatGo file sectorSize rest (i + 1)
    else
      ((List.range (sectorSize / 4)).map (fun j =>
        let nxt := readU32 file ((1 + e) * sectorSize + 4 * j)
        { number := j + i * (sectorSize / 4), next := nxt, type := classify nxt }))
      ++ buildFatGo file sectorSize rest (i + 1)

/-- myAllocatedSectors built from the full DIFAT entry list. -/
def buildFat (file : List Nat) (sectorSize : Nat) (difatEntries : List Nat) :
    List FatRec :=
  buildFatGo file sectorSize difatEntries 0

/-- Linear search of myAllocatedSectors for the record whose number field
equals n - the for-loop-with-break pattern used by every chain follower
in main. -/
def findRec (fat : List FatRec) (n : Nat) : Option FatRec :=
  fat.find? (fun r => r.number == n)

/-- The shared next-sector computation of the MiniFAT, mini-stream and
stream-content loops (main, 386-395, 427-437, 492-501): a Data record
yields its next field, an EndOfChain record or any other type yields
ENDOFCHAIN (stopping the loop), and when no record has the wanted number
the loop variable is left unchanged (so the while loop spins forever). -/
def nextOf (fat : List FatRec) (cur : Nat) : Nat :=
  match findRec fat cur with
  | none => cur
  | some r => if r.type = SectorType.Data then r.next else ENDOFCHAIN

/-! ## Directory sector chain (main, lines 331-348) -/

/-- The directory-chain while loop: on a Data record the next sector is
appended to the chain and followed; on an EndOfChain record, or any other
record type (after an error message), the loop stops returning the chain;
when no record matches, the loop repeats with cur unchanged, forever. -/
def dirChainGo (fat : List FatRec) : Nat → Nat → List Nat → Option (List Nat)
  | 0, _, _ => none
  | fuel + 1, cur, chain =>
    if cur = ENDOFCHAIN then some chain
    else
      match findRec fat cur with
      | none => dirChainGo fat fuel cur chain
      | some r =>
        if r.type = SectorType.Data then
          dirChainGo fat fuel r.next (chain ++ [r.next])
        else dirChainGo fat fuel ENDOFCHAIN chain

/-- myDirSectorChain: the loop starts from first_directory_sector_id with
that id already in the chain. -/
def dirSectorChain (fat : List FatRec) (first fuel : Nat) : Option (List Nat) :=
  dirChainGo fat fuel first [first]

/-! ## MiniFAT table and mini stream (main, lines 371-437) -/

/-- The MiniFAT-building while loop (main, 376-395): each iteration
appends the sectorSize/4 32-bit entries of the current MiniFAT sector and
then moves to nextOf; note that when no FAT record matches, the same
sector's entries are appended again on every iteration, forever. -/
def miniFatGo (file : List Nat) (fat : List FatRec) (sectorSize : Nat) :
    Nat → Nat → List Nat → Option (List Nat)
  | 0, _, _ => none
  | fuel + 1, cur, entries =>
    if cur = ENDOFCHAIN then some entries
    else
      let off := (cur + 1) * sectorSize
      let entries2 := entries ++ (List.range (sectorSize / 4)).map
        (fun i => readU32 file (off + 4 * i))
      miniFatGo file fat sectorSize fuel (nextOf fat cur) entries2

/-- The mini-stream reading while loop (main, 413-437): each iteration
appends the current sector id to the chain and the sectorSize/miniSize
mini-sector blocks of the sector to the stream list, then moves to
nextOf. -/
def miniStreamGo (file : List Nat) (fat : List FatRec) (sectorSize miniSize : Nat) :
    Nat → Nat → List (List Nat) → List Nat → Option (List (List Nat) × List Nat)
  | 0, _, _, _ => none
  | fuel + 1, cur, stream, chain =>
    if cur = ENDOFCHAIN then some (stream, chain)
    else
      let off := (cur + 1) * sectorSize
      let stream2 := stream ++ (List.range (sectorSize / miniSize)).map
        (fun i => (file.drop (off + i * miniSize)).take miniSize)
      miniStreamGo file fat sectorSize miniSize fuel (nextOf fat cur)
        stream2 (chain ++ [cur])



/-! ## Directory entries (dump_entry, lines 84-158, and main, lines 357-369) -/

/-- The attributes that dump_entry attaches to a directory entry at lines
102-106 of the source (keys start, type, id, size added to the dict). -/
structure DirAttrs where
  start : Nat
  type : Nat
  id : Nat
  size : Nat
  deriving DecidableEq

/-- A directory entry: the raw 128-byte record, and the attached
attributes - none until dump_entry visits the entry (the Python dict
initially has only the data and offset keys). -/
structure DirEntry where
  data : List Nat
  attrs : Option DirAttrs
  deriving DecidableEq

/-- Reading the 128-byte directory records of every sector of the
directory sector chain (main, lines 361-366). -/
def readDirEntries (file : List Nat) (sectorSize : Nat) (chain : List Nat) :
    List DirEntry :=
  chain.flatMap (fun s => (List.range (sectorSize / 128)).map
    (fun j => { data := (file.drop ((s + 1) * sectorSize + j * 128)).take 128,
                attrs := none }))

/-- Lines 102-106 of dump_entry: attach start (u32 at 116), type (the
byte at 66), id (the index) and size (u64 at 120) to the entry. -/
def setAttrs (e : DirEntry) (idx : Nat) : DirEntry :=
  { e with attrs := some { start := readU32 e.data 116, type := e.data.getD 66 0,
                           id := idx, size := readU64 e.data 120 } }

/-- dump_entry (lines 84-158), fuel-indexed.  The entry's fields are
decoded from its raw bytes; the attributes are attached; then the left
sibling (u32 at 68) is visited if not UNALLOCATED, the entry itself is
recorded (the print block) with its indent, the right sibling (u32 at 72)
is visited if not UNALLOCATED, and finally the child (u32 at 76) is
visited - at the same indent when the type byte is 5 (Root) and the child
id is not 0, at indent+1 when the type byte is 1 (Storage) and the child
id is not 0.  The result is the updated entry list and the visit order as
(index, indent) pairs; none models both fuel exhaustion (unbounded
recursion) and a Python IndexError on an out-of-range entry index. -/
def dump_entry : Nat → List DirEntry → Nat → Nat →
    Option (List DirEntry × List (Nat × Nat))
  | 0, _, _, _ => none
  | fuel + 1, entries, idx, indent =>
    match entries[idx]? with
    | none => none
    | some e =>
      let left := readU32 e.data 68
      let right := readU32 e.data 72
      let child := readU32 e.data 76
      let objType := e.data.getD 66 0
      let entries1 := entries.set idx (setAttrs e idx)
      match (if left = UNALLOCATED then some (entries1, ([] : List (Nat × Nat)))
             else dump_entry fuel entries1 left indent) with
      | none => none
      | some (entries2, vL) =>
        match (if right = UNALLOCATED then some (entries2, ([] : List (Nat × Nat)))
               else dump_entry fuel entries2 right indent) with
        | none => none
        | some (entries3, vR) =>
          match (if objType = 5 ∧ child ≠ 0 then dump_entry fuel entries3 child indent
                 else if objType = 1 ∧ child ≠ 0 then
                   dump_entry fuel entries3 child (indent + 1)
                 else some (entries3, ([] : List (Nat × Nat)))) with
          | none => none
          | some (entries4, vC) =>
            some (entries4, vL ++ [(idx, indent)] ++ vR ++ vC)

/-! ## Stream dumping (main, lines 444-502) -/

/-- The mini-stream branch of the stream dump (lines 457-472): while the
mini-sector index is not ENDOFCHAIN, dump all miniSize bytes of the
mini-sector's block and move to the MiniFAT entry at that index.  An
out-of-range index into the mini stream list or the MiniFAT entry list is
a Python IndexError, modelled as none, as is fuel exhaustion.  Bytes of a
block shorter than miniSize are modelled as 0. -/
def dumpStreamMini (miniFat : List Nat) (miniStream : List (List Nat))
    (miniSize : Nat) : Nat → Nat → Option (List Nat)
  | 0, _ => none
  | fuel + 1, idx =>
    if idx = ENDOFCHAIN then some []
    else
      match miniStream[idx]? with
      | none => none
      | some blk =>
        let bytes := (List.range miniSize).map (fun j => blk.getD j 0)
        match miniFat[idx]? with
        | none => none
        | some next =>
          (dumpStreamMini miniFat miniStream miniSize fuel next).map (bytes ++ ·)

/-- The normal-sector branch of the stream dump (lines 476-501): while
the sector index is not ENDOFCHAIN, seek to (1 + idx) * sectorSize, dump
sectorSize bytes, and move to the next sector found in the FAT (nextOf:
the loop spins forever when no FAT record matches the index). -/
def dumpStreamMain (file : List Nat) (fat : List FatRec) (sectorSize : Nat) :
    Nat → Nat → Option (List Nat)
  | 0, _ => none
  | fuel + 1, idx =>
    if idx = ENDOFCHAIN then some []
    else
      let data := (file.drop ((1 + idx) * sectorSize)).take sectorSize
      let bytes := (List.range sectorSize).map (fun j => data.getD j 0)
      (dumpStreamMain file fat sectorSize fuel (nextOf fat idx)).map (bytes ++ ·)

/-- The per-entry body of the stream-dumping pass (lines 444-502): an
entry without attached attributes (never visited by dump_entry) is
skipped, as is an entry whose attached type is not 2 (Stream); the result
some none means skipped without reading any stream data.  For a Stream
entry, the mini-stream walk is used when the attached size is below the
cutoff, the normal-sector walk otherwise, starting from the attached
start sector in both cases. -/
def entryDump (file : List Nat) (fat : List FatRec) (miniFat : List Nat)
    (miniStream : List (List Nat)) (sectorSize miniSize cutoff fuel : Nat)
    (e : DirEntry) : Option (Option (List Nat)) :=
  match e.attrs with
  | none => some none
  | some a =>
    if a.type = 2 then
      (if a.size < cutoff then dumpStreamMini miniFat miniStream miniSize fuel a.start
       else dumpStreamMain file fat sectorSize fuel a.start).map some
    else some none

/-! ## Concrete inputs used by witnesses and counterexamples -/

/-- The two characters of the 02X rendering of a byte value. -/
def hexPair (b : Nat) : List Char := [hexDigit (b / 16 % 16), hexDigit (b % 16)]

/-- The little-endian byte encoding of a 32-bit value. -/
def u32bytes (n : Nat) : List Nat :=
  [n % 256, n / 256 % 256, n / 65536 % 256, n / 16777216 % 256]

/-- A directory record with the given type byte (offset 66), left sibling
(68), right sibling (72) and child (76); every other field, the starting
sector and the size included, is 0. -/
def mkDirData (t l r c : Nat) : List Nat :=
  List.replicate 66 0 ++ [t, 0] ++ u32bytes l ++ u32bytes r ++ u32bytes c

/-- A directory entry whose left-sibling pointer refers to the entry
itself (entry 0 with left sibling 0). -/
def cycEntry : DirEntry := { data := mkDirData 1 0 UNALLOCATED 0, attrs := none }

/-- A one-entry directory array with a self-referential sibling pointer. -/
def cycEntries : List DirEntry := [cycEntry]

/-- A Root entry (type 5) with no siblings and child id 0. -/
def rootChildZero : DirEntry :=
  { data := mkDirData 5 UNALLOCATED UNALLOCATED 0, attrs := none }

/-- A Storage entry (type 1) with no siblings and child id 1. -/
def cStorage : DirEntry :=
  { data := mkDirData 1 UNALLOCATED UNALLOCATED 1, attrs := none }

/-- A Stream entry (type 2) with no siblings and no child. -/
def cStream : DirEntry :=
  { data := mkDirData 2 UNALLOCATED UNALLOCATED 0, attrs := none }

/-- A two-entry directory: a Storage at index 0 whose child is index 1. -/
def cEntries : List DirEntry := [cStorage, cStream]

/-- A two-entry directory in which the traversal from entry 0 never
reaches entry 1. -/
def entsC10 : List DirEntry := [rootChildZero, cStream]

/-- A one-record FAT whose only sector, number 0, chains to itself. -/
def selfFat : List FatRec := [{ number := 0, next := 0, type := SectorType.Data }]

/-- A one-record FAT whose only sector, number 0, ends its chain. -/
def endFat : List FatRec :=
  [{ number := 0, next := ENDOFCHAIN, type := SectorType.EndOfChain }]

/-- An 8-byte source (sector size 4) whose DIFAT sector 0 names itself as
the next DIFAT sector: the last 32-bit slot of sector 0, at offset 4,
holds 0. -/
def difatSelfFile : List Nat := [0, 0, 0, 0, 0, 0, 0, 0]

/-- An 8-byte source that does not start with the magic signature. -/
def badFile : List Nat := List.replicate 8 0

/-- The CLSID byte example of the spec. -/
def clsidExample : List Nat := [0x00, 0x11, 0x22, 0x33, 0x44, 0x55, 0x66, 0x77,
  0x88, 0x99, 0xAA, 0xBB, 0xCC, 0xDD, 0xEE, 0xFF]

/-- A one-entry MiniFAT: mini sector 0 ends its chain. -/
def miniFatEx : List Nat := [ENDOFCHAIN]

/-- A mini stream with a single 4-byte mini sector. -/
def miniStreamEx : List (List Nat) := [[1, 2, 3, 4]]

/-- A visited Stream directory entry with declared size 2 and starting
mini sector 0. -/
def eSmallEntry : DirEntry :=
  { data := [], attrs := some { start := 0, type := 2, id := 0, size := 2 } }

/-- A visited Stream directory entry with declared size 5000 (above the
4096 cutoff) and starting sector 0. -/
def eBigEntry : DirEntry :=
  { data := [], attrs := some { start := 0, type := 2, id := 0, size := 5000 } }

/-! # Theorems -/

/-! ## CLSID rendering (claims C8 and C9) -/

theorem parse_clsid_data (c : List Nat) :
    (parse_clsid c).data =
      hexPair (c.getD 3 0) ++ hexPair (c.getD 2 0) ++ hexPair (c.getD 1 0) ++
      hexPair (c.getD 0 0) ++ '-' ::
      (hexPair (c.getD 5 0) ++ hexPair (c.getD 4 0) ++ '-' ::
      (hexPair (c.getD 7 0) ++ hexPair (c.getD 6 0) ++ '-' ::
      (hexPair (c.getD 8 0) ++ hexPair (c.getD 9 0) ++ '-' ::
      (hexPair (c.getD 10 0) ++ hexPair (c.getD 11 0) ++ hexPair (c.getD 12 0) ++
       hexPair (c.getD 13 0) ++ hexPair (c.getD 14 0) ++ hexPair (c.getD 15 0))))) := by
  simp [parse_clsid, formatHex2, hexPair, String.data_append,
    show List.range 4 = [0, 1, 2, 3] from rfl, List.foldl]

theorem renderClsidSpec_data (c : List Nat) :
    (renderClsidSpec c).data =
      hexPair (c.getD 3 0) ++ hexPair (c.getD 2 0) ++ hexPair (c.getD 1 0) ++
      hexPair (c.getD 0 0) ++ '-' ::
      (hexPair (c.getD 5 0) ++ hexPair (c.getD 4 0) ++ '-' ::
      (hexPair (c.getD 7 0) ++ hexPair (c.getD 6 0) ++ '-' ::
      (hexPair (c.getD 8 0) ++ hexPair (c.getD 9 0) ++ '-' ::
      (hexPair (c.getD 10 0) ++ hexPair (c.getD 11 0) ++ hexPair (c.getD 12 0) ++
       hexPair (c.getD 13 0) ++ hexPair (c.getD 14 0) ++ hexPair (c.getD 15 0))))) := by
  simp [renderClsidSpec, clsidGroups, formatHex2, hexPair, String.intercalate,
    String.intercalate.go, String.join, String.data_append, List.foldl]

/-- C8: the CLSID rendering of parse_clsid follows the mixed-endian group
order bytes 3,2,1,0 - 5,4 - 7,6 - 8,9 - 10..15 with dash separators and
two uppercase hex digits per byte, as described by renderClsidSpec; in
particular the 16 bytes 00 11 22 33 44 55 66 77 88 99 AA BB CC DD EE FF
render as 33221100-5544-7766-8899-AABBCCDDEEFF. -/
theorem clsid_rendering_mixed_endian :
    (∀ c : List Nat, parse_clsid c = renderClsidSpec c) ∧
    parse_clsid clsidExample = "33221100-5544-7766-8899-AABBCCDDEEFF" := by
  constructor
  · intro c
    exact String.ext ((parse_clsid_data c).trans (renderClsidSpec_data c).symm)
  · decide

theorem hexDigit_upperHex : ∀ m : Nat, m < 16 → isUpperHex (hexDigit m) ∧ hexDigit m ≠ '-' := by
  decide

theorem mem_hexPair_upperHex (b : Nat) : ∀ ch ∈ hexPair b, isUpperHex ch := by
  intro ch hch
  have h1 : b / 16 % 16 < 16 := Nat.mod_lt _ (by norm_num)
  have h2 : b % 16 < 16 := Nat.mod_lt _ (by norm_num)
  simp only [hexPair, List.mem_cons, List.not_mem_nil, or_false] at hch
  rcases hch with h | h <;> subst h
  · exact (hexDigit_upperHex _ h1).1
  · exact (hexDigit_upperHex _ h2).1

/-- C9: for a 16-byte CLSID, parse_clsid yields a 36-character string
with dashes at positions 8, 13, 18 and 23, structured as five groups of
uppercase hexadecimal digits of lengths 8, 4, 4, 4 and 12 separated by
single dashes. -/
theorem parse_clsid_shape (c : List Nat) (_hlen : c.length = 16)
    (_hb : ∀ b ∈ c, b < 256) :
    (parse_clsid c).length = 36 ∧
    ((parse_clsid c).data.getD 8 'x' = '-' ∧ (parse_clsid c).data.getD 13 'x' = '-' ∧
     (parse_clsid c).data.getD 18 'x' = '-' ∧ (parse_clsid c).data.getD 23 'x' = '-') ∧
    ∃ g1 g2 g3 g4 g5 : List Char,
      (parse_clsid c).data =
        g1 ++ '-' :: (g2 ++ '-' :: (g3 ++ '-' :: (g4 ++ '-' :: g5))) ∧
      g1.length = 8 ∧ g2.length = 4 ∧ g3.length = 4 ∧ g4.length = 4 ∧
      g5.length = 12 ∧ ∀ ch ∈ g1 ++ g2 ++ g3 ++ g4 ++ g5, isUpperHex ch := by
  have hdata := parse_clsid_data c
  refine ⟨?_, ⟨?_, ?_, ?_, ?_⟩, ?_⟩
  · show (parse_clsid c).data.length = 36
    rw [hdata]; simp [hexPair]
  · rw [hdata]; simp [hexPair, List.getD]
  · rw [hdata]; simp [hexPair, List.getD]
  · rw [hdata]; simp [hexPair, List.getD]
  · rw [hdata]; simp [hexPair, List.getD]
  · refine ⟨hexPair (c.getD 3 0) ++ hexPair (c.getD 2 0) ++ hexPair (c.getD 1 0) ++
      hexPair (c.getD 0 0),
      hexPair (c.getD 5 0) ++ hexPair (c.getD 4 0),
      hexPair (c.getD 7 0) ++ hexPair (c.getD 6 0),
      hexPair (c.getD 8 0) ++ hexPair (c.getD 9 0),
      hexPair (c.getD 10 0) ++ hexPair (c.getD 11 0) ++ hexPair (c.getD 12 0) ++
      hexPair (c.getD 13 0) ++ hexPair (c.getD 14 0) ++ hexPair (c.getD 15 0),
      ?_, by simp [hexPair], by simp [hexPair], by simp [hexPair], by simp [hexPair],
      by simp [hexPair], ?_⟩
    · rw [hdata]
    · intro ch hch
      simp only [List.mem_append, or_assoc] at hch
      rcases hch with h | h | h | h | h | h | h | h | h | h | h | h | h | h | h | h <;>
        exact mem_hexPair_upperHex _ ch h

/-! ## Signature check (claim C7) -/

/-- C7: on a byte source whose first 8 bytes are not the magic signature,
the decoder front end fails with badSignature at once, and every byte
offset it has read lies below 8. -/
theorem decode_bad_signature (file : List Nat) (h : file.take 8 ≠ MAGICOLESIG) :
    (decodeHeader file).1 = Except.error FormatError.badSignature ∧
    ((decodeHeader file).2.reads.all fun o => decide (o < 8)) = true := by
  have hd : decodeHeader file =
      (Except.error FormatError.badSignature,
        ⟨8, (List.range 8).map (0 + ·)⟩) := by
    simp [decodeHeader, rread, h]
  rw [hd]
  exact ⟨rfl, by decide⟩

/-- Witness for C7 at a concrete all-zero 8-byte source. -/
theorem decode_bad_signature_witness :
    (decodeHeader badFile).1 = Except.error FormatError.badSignature ∧
    ((decodeHeader badFile).2.reads.all fun o => decide (o < 8)) = true :=
  decode_bad_signature badFile (by decide)

/-! ## Chain following (claims C1 and C3) -/

theorem nextOf_self (fat : List FatRec) (cur : Nat) (r : FatRec)
    (hfind : findRec fat cur = some r) (hdata : r.type = SectorType.Data)
    (hnext : r.next = cur) : nextOf fat cur = cur := by
  simp [nextOf, hfind, hdata, hnext]

theorem dirChainGo_selfloop (fat : List FatRec) (cur : Nat) (r : FatRec)
    (hfind : findRec fat cur = some r) (hdata : r.type = SectorType.Data)
    (hnext : r.next = cur) (hne : cur ≠ ENDOFCHAIN) :
    ∀ fuel chain, dirChainGo fat fuel cur chain = none := by
  intro fuel
  induction fuel with
  | zero => intro chain; rfl
  | succ n ih =>
    intro chain
    simp only [dirChainGo, hfind, hdata, hnext, if_neg hne, if_pos rfl]
    exact ih _

theorem dumpStreamMain_fix (file : List Nat) (fat : List FatRec) (ss cur : Nat)
    (hfix : nextOf fat cur = cur) (hne : cur ≠ ENDOFCHAIN) :
    ∀ fuel, dumpStreamMain file fat ss fuel cur = none := by
  intro fuel
  induction fuel with
  | zero => rfl
  | succ n ih =>
    simp only [dumpStreamMain, if_neg hne, hfix, ih]
    rfl

theorem miniFatGo_fix (file : List Nat) (fat : List FatRec) (ss cur : Nat)
    (hfix : nextOf fat cur = cur) (hne : cur ≠ ENDOFCHAIN) :
    ∀ fuel entries, miniFatGo file fat ss fuel cur entries = none := by
  intro fuel
  induction fuel with
  | zero => intro entries; rfl
  | succ n ih =>
    intro entries
    simp only [miniFatGo, if_neg hne, hfix]
    exact ih _

theorem miniStreamGo_fix (file : List Nat) (fat : List FatRec) (ss mss cur : Nat)
    (hfix : nextOf fat cur = cur) (hne : cur ≠ ENDOFCHAIN) :
    ∀ fuel stream chain,
      miniStreamGo file fat ss mss fuel cur stream chain = none := by
  intro fuel
  induction fuel with
  | zero => intro stream chain; rfl
  | succ n ih =>
    intro stream chain
    simp only [miniStreamGo, if_neg hne, hfix]
    exact ih _ _

/-- C1 (corrected): the chain-following loops have no visited-set and no
bound of any kind; their only exits are reaching ENDOFCHAIN or a non-Data
FAT record.  On a FAT in which a sector chains to itself, the directory
chain, MiniFAT, mini-stream and stream-content loops all revisit that
sector forever: for every iteration bound (fuel) they are still running
(result none), so visits are bounded by no sector count and sector ids
are revisited. -/
theorem chain_following_no_visited_set (file : List Nat) (fat : List FatRec)
    (sectorSize miniSize cur : Nat) (r : FatRec)
    (hfind : findRec fat cur = some r) (hdata : r.type = SectorType.Data)
    (hnext : r.next = cur) (hne : cur ≠ ENDOFCHAIN) :
    (∀ fuel chain, dirChainGo fat fuel cur chain = none) ∧
    (∀ fuel, dumpStreamMain file fat sectorSize fuel cur = none) ∧
    (∀ fuel entries, miniFatGo file fat sectorSize fuel cur entries = none) ∧
    (∀ fuel stream chain,
      miniStreamGo file fat sectorSize miniSize fuel cur stream chain = none) := by
  have hfix := nextOf_self fat cur r hfind hdata hnext
  exact ⟨dirChainGo_selfloop fat cur r hfind hdata hnext hne,
    dumpStreamMain_fix file fat sectorSize cur hfix hne,
    miniFatGo_fix file fat sectorSize cur hfix hne,
    miniStreamGo_fix file fat sectorSize miniSize cur hfix hne⟩

/-- Witness for C1 on the concrete one-sector self-chaining FAT. -/
theorem chain_following_no_visited_set_witness :
    dirChainGo selfFat 25 0 [0] = none ∧ dumpStreamMain [] selfFat 4 25 0 = none ∧
    miniFatGo [] selfFat 4 25 0 [] = none ∧
    miniStreamGo [] selfFat 4 4 25 0 [] [] = none := by
  have h := chain_following_no_visited_set [] selfFat 4 4 0
    { number := 0, next := 0, type := SectorType.Data } (by decide) rfl rfl (by decide)
  exact ⟨h.1 25 [0], h.2.1 25, h.2.2.1 25 [], h.2.2.2 25 [] []⟩

/-- C1 counterexample: on the FAT with exactly one addressable sector
(sector 0, which chains to itself), the directory-chain loop is still
running after 100 iterations - the claimed bound of at most one visited
sector, with no revisits, is violated: sector 0 is looked up anew on
every iteration. -/
theorem chain_following_counterexample :
    dirChainGo selfFat 100 0 [0] = none :=
  dirChainGo_selfloop selfFat 0 { number := 0, next := 0, type := SectorType.Data }
    (by decide) rfl rfl (by decide) 100 [0]

theorem buildDifatGo_selfloop (file : List Nat) (ss s : Nat)
    (hne : s ≠ ENDOFCHAIN)
    (hnext : readU32 file ((1 + s) * ss + 4 * (ss / 4 - 1)) = s) :
    ∀ fuel chain entries, buildDifatGo file ss fuel s chain entries = none := by
  intro fuel
  induction fuel with
  | zero => intro chain entries; rfl
  | succ n ih =>
    intro chain entries
    simp only [buildDifatGo, if_neg hne, hnext]
    exact ih _ _

/-- C3 (corrected): the DIFAT-sector loop keeps no visited-set and raises
no DifatCycle error; when the next-DIFAT-sector pointer of a sector
refers back to that same sector, the loop revisits it forever (result
none for every fuel), while a next pointer equal to ENDOFCHAIN terminates
the loop with the accumulated chain and entries. -/
theorem difat_chain_no_cycle_guard (file : List Nat) (ss s : Nat)
    (hne : s ≠ ENDOFCHAIN)
    (hnext : readU32 file ((1 + s) * ss + 4 * (ss / 4 - 1)) = s) :
    (∀ fuel chain entries, buildDifatGo file ss fuel s chain entries = none) ∧
    (∀ fuel chain entries,
      buildDifatGo file ss (fuel + 1) ENDOFCHAIN chain entries = some (chain, entries)) := by
  refine ⟨buildDifatGo_selfloop file ss s hne hnext, ?_⟩
  intro fuel chain entries
  simp [buildDifatGo]

/-- Witness for C3 on the concrete 8-byte source whose DIFAT sector 0
names itself as the next DIFAT sector. -/
theorem difat_chain_no_cycle_guard_witness :
    buildDifatGo difatSelfFile 4 30 0 [0] [] = none ∧
    buildDifatGo difatSelfFile 4 1 ENDOFCHAIN [0] [] = some ([0], []) := by
  have h := difat_chain_no_cycle_guard difatSelfFile 4 0 (by decide) (by decide)
  exact ⟨h.1 30 [0] [], h.2 0 [0] []⟩

/-- C3 counterexample: with the self-referential DIFAT sector of
difatSelfFile, DIFAT resolution is still running after 109 iterations;
no DifatCycle failure exists in the code. -/
theorem difat_cycle_counterexample :
    buildDifatGo difatSelfFile 4 109 0 [0] [] = none :=
  buildDifatGo_selfloop difatSelfFile 4 0 (by decide) (by decide) 109 [0] []

/-! ## Directory tree traversal (claims C2, C5 and C10) -/

theorem dump_entry_left_selfloop (idx ind : Nat) (hidx : idx ≠ UNALLOCATED) :
    ∀ fuel (entries : List DirEntry) (e : DirEntry), entries[idx]? = some e →
      readU32 e.data 68 = idx → dump_entry fuel entries idx ind = none := by
  intro fuel
  induction fuel with
  | zero => intro entries e _ _; rfl
  | succ n ih =>
    intro entries e he hleft
    have hlt : idx < entries.length := by
      rcases List.getElem?_eq_some.mp he with ⟨h, _⟩; exact h
    have h1 : (entries.set idx (setAttrs e idx))[idx]? = some (setAttrs e idx) :=
      List.getElem?_set_self hlt
    have h2 : dump_entry n (entries.set idx (setAttrs e idx)) idx ind = none :=
      ih (entries.set idx (setAttrs e idx)) (setAttrs e idx) h1 hleft
    simp only [dump_entry, he, hleft, if_neg hidx, h2]

/-- C2 (corrected): the recursive directory traversal keeps no visited
set and raises no DirectoryCycle error; on an entry whose left-sibling
pointer refers back to the entry itself, the traversal recurses forever:
for every recursion bound (fuel) it has not completed. -/
theorem directory_cycle_not_detected (idx ind : Nat) (hidx : idx ≠ UNALLOCATED)
    (entries : List DirEntry) (e : DirEntry) (he : entries[idx]? = some e)
    (hleft : readU32 e.data 68 = idx) :
    ∀ fuel, dump_entry fuel entries idx ind = none :=
  fun fuel => dump_entry_left_selfloop idx ind hidx fuel entries e he hleft

/-- Witness for C2 on the concrete one-entry directory whose entry 0 has
left sibling 0. -/
theorem directory_cycle_not_detected_witness :
    dump_entry 64 cycEntries 0 0 = none :=
  directory_cycle_not_detected 0 0 (by decide) cycEntries cycEntry rfl (by decide) 64

/-- C2 counterexample: on the self-referential sibling pointer of
cycEntries the traversal is still recursing after 100 nested calls, and
no DirectoryCycle outcome exists in the code - the recursion never
returns. -/
theorem directory_cycle_counterexample :
    dump_entry 100 cycEntries 0 0 = none :=
  dump_entry_left_selfloop 0 0 (by decide) 100 cycEntries cycEntry rfl (by decide)

/-- C5 (corrected): after the sibling recursions, the child of entry e is
visited if and only if e's type byte is 5 (Root) or 1 (Storage) AND the
child id differs from 0 - the code compares the child id with 0, not with
the unallocated sentinel 0xFFFFFFFF.  The depth is as claimed: the
child of the Root is visited at the same indent, the child of a Storage
at indent + 1. -/
theorem child_visit_condition (fuel : Nat) (entries : List DirEntry) (idx ind : Nat)
    (e : DirEntry) (he : entries[idx]? = some e)
    (hl : readU32 e.data 68 = UNALLOCATED) (hr : readU32 e.data 72 = UNALLOCATED) :
    dump_entry (fuel + 1) entries idx ind =
      if e.data.getD 66 0 = 5 ∧ readU32 e.data 76 ≠ 0 then
        (dump_entry fuel (entries.set idx (setAttrs e idx)) (readU32 e.data 76) ind).map
          (fun p => (p.1, (idx, ind) :: p.2))
      else if e.data.getD 66 0 = 1 ∧ readU32 e.data 76 ≠ 0 then
        (dump_entry fuel (entries.set idx (setAttrs e idx)) (readU32 e.data 76)
          (ind + 1)).map (fun p => (p.1, (idx, ind) :: p.2))
      else some (entries.set idx (setAttrs e idx), [(idx, ind)]) := by
  simp only [dump_entry, he, hl, hr, if_true]
  by_cases h5 : e.data.getD 66 0 = 5 ∧ readU32 e.data 76 ≠ 0
  · rw [if_pos h5, if_pos h5]
    cases hrec : dump_entry fuel (entries.set idx (setAttrs e idx)) (readU32 e.data 76) ind with
    | none => simp
    | some p => simp
  · rw [if_neg h5, if_neg h5]
    by_cases h1 : e.data.getD 66 0 = 1 ∧ readU32 e.data 76 ≠ 0
    · rw [if_pos h1, if_pos h1]
      cases hrec : dump_entry fuel (entries.set idx (setAttrs e idx)) (readU32 e.data 76)
          (ind + 1) with
      | none => simp
      | some p => simp
    · rw [if_neg h1, if_neg h1]
      simp

/-- Witness for C5: a Storage at index 0 with child id 1 - the child is
visited, at indent 1. -/
theorem child_visit_condition_witness :
    dump_entry 2 cEntries 0 0 =
      some ([setAttrs cStorage 0, setAttrs cStream 1], [(0, 0), (1, 1)]) := by
  have h := child_visit_condition 1 cEntries 0 0 cStorage rfl (by decide) (by decide)
  rw [h]
  decide

/-- C5 counterexample: a Root whose child id is 0.  0 is not the
unallocated sentinel, so by the claim the child should be visited (which
would visit entry 0 a second time); the code instead skips the child
because it compares with 0, and the traversal records exactly one
visit. -/
theorem child_sentinel_counterexample :
    readU32 rootChildZero.data 76 ≠ UNALLOCATED ∧
    dump_entry 9 [rootChildZero] 0 0 =
      some ([setAttrs rootChildZero 0], [(0, 0)]) := by
  decide

theorem dump_entry_unvisited :
    ∀ (fuel : Nat) (entries : List DirEntry) (idx ind : Nat)
      (out : List DirEntry) (vs : List (Nat × Nat)),
      dump_entry fuel entries idx ind = some (out, vs) →
      ∀ j, j ∉ vs.map Prod.fst → out[j]? = entries[j]? := by
  intro fuel
  induction fuel with
  | zero =>
    intro entries idx ind out vs h
    exact absurd h (by simp [dump_entry])
  | succ n ih =>
    intro entries idx ind out vs h j hj
    simp only [dump_entry] at h
    cases he : entries[idx]? with
    | none => rw [he] at h; exact absurd h (by simp)
    | some e =>
      simp only [he] at h
      cases hL : (if readU32 e.data 68 = UNALLOCATED then
          some (entries.set idx (setAttrs e idx), ([] : List (Nat × Nat)))
          else dump_entry n (entries.set idx (setAttrs e idx)) (readU32 e.data 68) ind) with
      | none => rw [hL] at h; exact absurd h (by simp)
      | some pL =>
        obtain ⟨entries2, vL⟩ := pL
        have FL : ∀ k, k ∉ vL.map Prod.fst →
            entries2[k]? = (entries.set idx (setAttrs e idx))[k]? := by
          by_cases hbl : readU32 e.data 68 = UNALLOCATED
          · rw [if_pos hbl] at hL
            injection hL with hL'
            injection hL' with h1 h2
            subst h1; subst h2
            intro k _; rfl
          · rw [if_neg hbl] at hL
            exact ih _ _ _ _ _ hL
        simp only [hL] at h
        cases hR : (if readU32 e.data 72 = UNALLOCATED then
            some (entries2, ([] : List (Nat × Nat)))
            else dump_entry n entries2 (readU32 e.data 72) ind) with
        | none => rw [hR] at h; exact absurd h (by simp)
        | some pR =>
          obtain ⟨entries3, vR⟩ := pR
          have FR : ∀ k, k ∉ vR.map Prod.fst → entries3[k]? = entries2[k]? := by
            by_cases hbr : readU32 e.data 72 = UNALLOCATED
            · rw [if_pos hbr] at hR
              injection hR with hR'
              injection hR' with h1 h2
              subst h1; subst h2
              intro k _; rfl
            · rw [if_neg hbr] at hR
              exact ih _ _ _ _ _ hR
          simp only [hR] at h
          cases hC : (if e.data.getD 66 0 = 5 ∧ readU32 e.data 76 ≠ 0 then
              dump_entry n entries3 (readU32 e.data 76) ind
              else if e.data.getD 66 0 = 1 ∧ readU32 e.data 76 ≠ 0 then
                dump_entry n entries3 (readU32 e.data 76) (ind + 1)
              else some (entries3, ([] : List (Nat × Nat)))) with
          | none => rw [hC] at h; exact absurd h (by simp)
          | some pC =>
            obtain ⟨entries4, vC⟩ := pC
            have FC : ∀ k, k ∉ vC.map Prod.fst → entries4[k]? = entries3[k]? := by
              by_cases h5 : e.data.getD 66 0 = 5 ∧ readU32 e.data 76 ≠ 0
              · rw [if_pos h5] at hC
                exact ih _ _ _ _ _ hC
              · rw [if_neg h5] at hC
                by_cases h1 : e.data.getD 66 0 = 1 ∧ readU32 e.data 76 ≠ 0
                · rw [if_pos h1] at hC
                  exact ih _ _ _ _ _ hC
                · rw [if_neg h1] at hC
                  injection hC with hC'
                  injection hC' with ha hb
                  subst ha; subst hb
                  intro k _; rfl
            simp only [hC] at h
            injection h with h'
            injection h' with hout hvs
            subst hout
            subst hvs
            have hjL : j ∉ vL.map Prod.fst := fun hm => hj (by simp [hm])
            have hjx : j ≠ idx := fun hm => hj (by simp [hm])
            have hjR : j ∉ vR.map Prod.fst := fun hm => hj (by simp [hm])
            have hjC : j ∉ vC.map Prod.fst := fun hm => hj (by simp [hm])
            calc entries4[j]? = entries3[j]? := FC j hjC
              _ = entries2[j]? := FR j hjR
              _ = (entries.set idx (setAttrs e idx))[j]? := FL j hjL
              _ = entries[j]? := List.getElem?_set_ne (fun hh => hjx hh.symm)

/-- C10: entries the traversal never visits are left untouched (their
attrs stay none, as nothing of them is changed), and the stream-dumping
pass skips, without reading any stream data, every entry whose attrs are
absent - even one whose raw record declares type Stream. -/
theorem stream_dump_only_visited :
    (∀ (fuel : Nat) (entries : List DirEntry) (idx ind : Nat)
       (out : List DirEntry) (vs : List (Nat × Nat)),
       dump_entry fuel entries idx ind = some (out, vs) →
       ∀ j, j ∉ vs.map Prod.fst → out[j]? = entries[j]?) ∧
    (∀ (file : List Nat) (fat : List FatRec) (miniFat : List Nat)
       (miniStream : List (List Nat)) (ss mss cutoff fuel : Nat) (e : DirEntry),
       e.attrs = none →
       entryDump file fat miniFat miniStream ss mss cutoff fuel e = some none) :=
  ⟨dump_entry_unvisited,
   fun _ _ _ _ _ _ _ _ e h => by simp [entryDump, h]⟩

/-- Witness for C10: in entsC10 the traversal visits only entry 0, entry
1 (a raw Stream record) keeps attrs none, and the dumping pass skips an
attrs-free entry. -/
theorem stream_dump_only_visited_witness :
    ([setAttrs rootChildZero 0, cStream] : List DirEntry)[1]? = entsC10[1]? ∧
    entryDump [] [] [] [] 0 0 0 0 cStream = some none := by
  constructor
  · exact stream_dump_only_visited.1 3 entsC10 0 0
      [setAttrs rootChildZero 0, cStream] [(0, 0)] (by decide) 1 (by decide)
  · exact stream_dump_only_visited.2 [] [] [] [] 0 0 0 0 cStream rfl

/-! ## Stream content resolution (claims C6 and C4) -/

/-- C6: the stream-dumping pass resolves a Stream entry's content through
the MiniFAT/mini-stream walk exactly when its declared size is below the
cutoff, and through the main-FAT walk (which reads sectorSize bytes at
file offset (1 + sector id) * sectorSize per sector, as dumpStreamMain
does) exactly when the size is at or above the cutoff; each branch is
used exclusively. -/
theorem readStream_cutoff_dispatch (file : List Nat) (fat : List FatRec)
    (miniFat : List Nat) (miniStream : List (List Nat)) (ss mss cutoff fuel : Nat)
    (e : DirEntry) (a : DirAttrs) (ha : e.attrs = some a) (ht : a.type = 2) :
    (a.size < cutoff →
      entryDump file fat miniFat miniStream ss mss cutoff fuel e =
        (dumpStreamMini miniFat miniStream mss fuel a.start).map some) ∧
    (cutoff ≤ a.size →
      entryDump file fat miniFat miniStream ss mss cutoff fuel e =
        (dumpStreamMain file fat ss fuel a.start).map some) := by
  constructor <;> intro hs
  · simp [entryDump, ha, ht, hs]
  · simp [entryDump, ha, ht, Nat.not_lt.mpr hs]

/-- Witness for C6: a size-2 Stream entry uses the mini-stream walk, a
size-5000 entry (cutoff 4096) the main-FAT walk. -/
theorem readStream_cutoff_dispatch_witness :
    entryDump [] [] miniFatEx miniStreamEx 16 4 4096 5 eSmallEntry =
      (dumpStreamMini miniFatEx miniStreamEx 4 5 0).map some ∧
    entryDump [] endFat miniFatEx miniStreamEx 4 4 4096 5 eBigEntry =
      (dumpStreamMain [] endFat 4 5 0).map some := by
  constructor
  · exact (readStream_cutoff_dispatch [] [] miniFatEx miniStreamEx 16 4 4096 5
      eSmallEntry { start := 0, type := 2, id := 0, size := 2 } rfl rfl).1 (by decide)
  · exact (readStream_cutoff_dispatch [] endFat miniFatEx miniStreamEx 4 4 4096 5
      eBigEntry { start := 0, type := 2, id := 0, size := 5000 } rfl rfl).2 (by decide)

theorem dumpStreamMini_mod (miniFat : List Nat) (miniStream : List (List Nat))
    (mss : Nat) :
    ∀ fuel idx out, dumpStreamMini miniFat miniStream mss fuel idx = some out →
      mss ∣ out.length := by
  intro fuel
  induction fuel with
  | zero => intro idx out h; exact absurd h (by simp [dumpStreamMini])
  | succ n ih =>
    intro idx out h
    simp only [dumpStreamMini] at h
    by_cases he : idx = ENDOFCHAIN
    · rw [if_pos he] at h
      injection h with h'
      rw [← h']
      simp
    · rw [if_neg he] at h
      cases hms : miniStream[idx]? with
      | none => rw [hms] at h; exact absurd h (by simp)
      | some blk =>
        simp only [hms] at h
        cases hmf : miniFat[idx]? with
        | none => rw [hmf] at h; exact absurd h (by simp)
        | some next =>
          simp only [hmf] at h
          cases hrec : dumpStreamMini miniFat miniStream mss n next with
          | none => rw [hrec] at h; exact absurd h (by simp)
          | some rest =>
            rw [hrec] at h
            injection h with h'
            rw [← h', List.length_append]
            have hb : ((List.range mss).map (fun j => blk.getD j 0)).length = mss := by
              simp
            rw [hb]
            exact Nat.dvd_add (dvd_refl mss) (ih next rest hrec)

theorem dumpStreamMain_mod (file : List Nat) (fat : List FatRec) (ss : Nat) :
    ∀ fuel idx out, dumpStreamMain file fat ss fuel idx = some out →
      ss ∣ out.length := by
  intro fuel
  induction fuel with
  | zero => intro idx out h; exact absurd h (by simp [dumpStreamMain])
  | succ n ih =>
    intro idx out h
    simp only [dumpStreamMain] at h
    by_cases he : idx = ENDOFCHAIN
    · rw [if_pos he] at h
      injection h with h'
      rw [← h']
      simp
    · rw [if_neg he] at h
      cases hrec : dumpStreamMain file fat ss n (nextOf fat idx) with
      | none => rw [hrec] at h; exact absurd h (by simp)
      | some rest =>
        rw [hrec] at h
        injection h with h'
        rw [← h', List.length_append]
        have hb : ((List.range ss).map
            (fun j => ((file.drop ((1 + idx) * ss)).take ss).getD j 0)).length = ss := by
          simp
        rw [hb]
        exact Nat.dvd_add (dvd_refl ss) (ih (nextOf fat idx) rest hrec)

/-- C4 (corrected): the stream-dumping pass never truncates to the
declared size - the content it emits for a Stream entry always has a
length that is a whole multiple of the mini-sector size (below-cutoff
branch) or of the sector size (at-or-above-cutoff branch), whatever the
declared size; the surplus of the last partially-used sector is dumped
along with the rest. -/
theorem stream_dump_no_truncation (file : List Nat) (fat : List FatRec)
    (miniFat : List Nat) (miniStream : List (List Nat)) (ss mss cutoff fuel : Nat)
    (e : DirEntry) (a : DirAttrs) (out : List Nat)
    (ha : e.attrs = some a) (ht : a.type = 2)
    (hout : entryDump file fat miniFat miniStream ss mss cutoff fuel e =
      some (some out)) :
    (a.size < cutoff → mss ∣ out.length) ∧
    (cutoff ≤ a.size → ss ∣ out.length) := by
  constructor <;> intro hs
  · have hd : entryDump file fat miniFat miniStream ss mss cutoff fuel e =
        (dumpStreamMini miniFat miniStream mss fuel a.start).map some := by
      simp [entryDump, ha, ht, hs]
    rw [hd] at hout
    cases hw : dumpStreamMini miniFat miniStream mss fuel a.start with
    | none => rw [hw] at hout; exact absurd hout (by simp)
    | some w =>
      rw [hw] at hout
      injection hout with h1
      injection h1 with h2
      rw [← h2]
      exact dumpStreamMini_mod miniFat miniStream mss fuel a.start w hw
  · have hd : entryDump file fat miniFat miniStream ss mss cutoff fuel e =
        (dumpStreamMain file fat ss fuel a.start).map some := by
      simp [entryDump, ha, ht, Nat.not_lt.mpr hs]
    rw [hd] at hout
    cases hw : dumpStreamMain file fat ss fuel a.start with
    | none => rw [hw] at hout; exact absurd hout (by simp)
    | some w =>
      rw [hw] at hout
      injection hout with h1
      injection h1 with h2
      rw [← h2]
      exact dumpStreamMain_mod file fat ss fuel a.start w hw

/-- Witness for C4: the size-2 Stream entry's dumped content is the full
4-byte mini sector, a multiple of the mini-sector size 4. -/
theorem stream_dump_no_truncation_witness :
    entryDump [] [] miniFatEx miniStreamEx 16 4 4096 5 eSmallEntry =
      some (some [1, 2, 3, 4]) ∧
    (4 : Nat) ∣ ([1, 2, 3, 4] : List Nat).length := by
  refine ⟨by decide, ?_⟩
  exact (stream_dump_no_truncation [] [] miniFatEx miniStreamEx 16 4 4096 5
    eSmallEntry { start := 0, type := 2, id := 0, size := 2 } [1, 2, 3, 4]
    rfl rfl (by decide)).1 (by decide)

/-- C4 counterexample: eSmallEntry declares size 2, yet the dumped
content is the full 4-byte mini sector - it is not truncated to 2
bytes, so the produced bytes do not equal the concatenation truncated to
the declared size. -/
theorem stream_dump_truncation_counterexample :
    entryDump [] [] miniFatEx miniStreamEx 16 4 4096 5 eSmallEntry =
      some (some [1, 2, 3, 4]) ∧
    ¬ (([1, 2, 3, 4] : List Nat).length = 2) := by
  decide

/-- Witness for C9 at the spec's concrete CLSID example bytes. -/
theorem parse_clsid_shape_witness :
    (parse_clsid clsidExample).length = 36 ∧
    ((parse_clsid clsidExample).data.getD 8 'x' = '-' ∧
     (parse_clsid clsidExample).data.getD 13 'x' = '-' ∧
     (parse_clsid clsidExample).data.getD 18 'x' = '-' ∧
     (parse_clsid clsidExample).data.getD 23 'x' = '-') ∧
    ∃ g1 g2 g3 g4 g5 : List Char,
      (parse_clsid clsidExample).data =
        g1 ++ '-' :: (g2 ++ '-' :: (g3 ++ '-' :: (g4 ++ '-' :: g5))) ∧
      g1.length = 8 ∧ g2.length = 4 ∧ g3.length = 4 ∧ g4.length = 4 ∧
      g5.length = 12 ∧ ∀ ch ∈ g1 ++ g2 ++ g3 ++ g4 ++ g5, isUpperHex ch :=
  parse_clsid_shape clsidExample (by decide) (by decide)
